import Mathlib

/-!
Verification development for the human-in-the-loop frontdesk workflow
(`app/db.py`, `app/knowledge_base.py`, `app/ai_agent.py`, `app/supervisor_ui.py`).

Python dictionaries are embedded as association lists that preserve insertion
order: assigning to an existing key updates the value in place, assigning to a
fresh key appends at the end, exactly as CPython dictionaries behave.  Machine
time (`time.time()`) is passed in explicitly as a natural number, and the uuid
generated by `handle_call` is passed in explicitly as a string.  Console output
is reflected in the returned `CallResult`.
-/

namespace FrontDesk

/-- Python `str.lower()` as used by the knowledge base, modelled
character-wise (the questions in play are ASCII). -/
def pyLower (s : String) : String :=
  ⟨s.data.map Char.toLower⟩

/-- First-match lookup in an association list: `d.get(k)` / `d[k]` on a
Python dict (keys are unique in any dict the program builds). -/
def dictGet {α : Type} (d : List (String × α)) (k : String) : Option α :=
  match d with
  | [] => none
  | (k₀, v₀) :: rest => if k₀ = k then some v₀ else dictGet rest k

/-- Python dict assignment `d[k] = v`: update in place if the key is present,
append at the end otherwise (insertion order preserved). -/
def dictSet {α : Type} (d : List (String × α)) (k : String) (v : α) :
    List (String × α) :=
  match d with
  | [] => [(k, v)]
  | (k₀, v₀) :: rest =>
      if k₀ = k then (k₀, v) :: rest else (k₀, v₀) :: dictSet rest k v

/-- The guarded in-place field update `if k in d: d[k].f = ...` used by
`update_help_request_status` and `save_answer`: a no-op when the key is
absent. -/
def dictModify {α : Type} (d : List (String × α)) (k : String) (f : α → α) :
    List (String × α) :=
  d.map (fun p => if p.1 = k then (p.1, f p.2) else p)

/-- One entry of `HELP_REQUESTS` (`app/db.py`): question, status, timestamp,
answer.  Status is the literal string `"Pending"` or `"Resolved"`; the answer
is `None` until resolved. -/
structure Request where
  question : String
  status : String
  timestamp : Nat
  answer : Option String
  deriving DecidableEq, Repr

/-- The in-memory DB `HELP_REQUESTS`: req_id ↦ request record. -/
abbrev Ledger := List (String × Request)

/-- The `KnowledgeBase.facts` dict: lowercased question ↦ stored value.  The
stored value is `req["answer"]`, which can itself be `None`, so values are
`Option String`. -/
abbrev Facts := List (String × Option String)

/-- Embeds `create_help_request(req_id, question)` (`app/db.py`): unconditionally
assigns a fresh Pending record with the current timestamp and no answer. -/
def create_help_request (db : Ledger) (req_id question : String) (now : Nat) :
    Ledger :=
  dictSet db req_id
    { question := question, status := "Pending", timestamp := now,
      answer := none }

/-- Embeds `update_help_request_status(req_id, status)` (`app/db.py`): sets the status
field if the id is present, silently does nothing otherwise. -/
def update_help_request_status (db : Ledger) (req_id status : String) :
    Ledger :=
  dictModify db req_id (fun req => { req with status := status })

/-- Embeds `save_answer(req_id, answer)` (`app/db.py`): sets the answer field if the
id is present, silently does nothing otherwise.  Callers always pass a string,
stored as `some answer`. -/
def save_answer (db : Ledger) (req_id ans : String) : Ledger :=
  dictModify db req_id (fun req => { req with answer := some ans })

/-- The loop body of `KnowledgeBase.load_facts` (`app/knowledge_base.py`):
fold over the ledger in insertion order, upserting
`facts[question.lower()] = answer` for every Resolved record. -/
def load_facts (facts : Facts) (db : Ledger) : Facts :=
  match db with
  | [] => facts
  | (_, req) :: rest =>
      if req.status = "Resolved" then
        load_facts (dictSet facts (pyLower req.question) req.answer) rest
      else
        load_facts facts rest

/-- Embeds `KnowledgeBase.__init__`: start from an empty facts dict and run
`load_facts` over the current ledger. -/
def knowledgeBaseInit (db : Ledger) : Facts :=
  load_facts [] db

/-- Embeds `KnowledgeBase.lookup(question)`: `facts.get(question.lower())`, which
returns `None` both when the key is absent and when the stored value is
`None`. -/
def lookup (facts : Facts) (question : String) : Option String :=
  match dictGet facts (pyLower question) with
  | some v => v
  | none => none

/-- Embeds `KnowledgeBase.learn(req_id, answer)`: scan the ledger for the first entry
with this id; if found, upsert `facts[question.lower()] = answer`; otherwise
leave the facts unchanged. -/
def learn (db : Ledger) (facts : Facts) (req_id ans : String) : Facts :=
  match dictGet db req_id with
  | some req => dictSet facts (pyLower req.question) (some ans)
  | none => facts

/-- Python truthiness of `kb.lookup(question)`: `None` and the empty string
are falsy, every other string is truthy. -/
def truthy (a : Option String) : Bool :=
  match a with
  | none => false
  | some s => s ≠ ""

/-- The mutable state an `AIAgent` touches: its knowledge base plus the
shared `HELP_REQUESTS` ledger. -/
structure AgentState where
  facts : Facts
  db : Ledger
  deriving DecidableEq, Repr

/-- What `AIAgent.handle_call` prints: either the immediate answer, or the
escalation notice carrying the request id and the verbatim question. -/
inductive CallResult where
  | answered (ans : String)
  | escalated (req_id : String) (question : String)
  deriving DecidableEq, Repr

/-- Embeds `AIAgent.handle_call(question)` (`app/ai_agent.py`): look the question up;
if the result is truthy print it, else create a Pending help request under a
fresh uuid and print the escalation notice. -/
def handle_call (st : AgentState) (question fresh_id : String) (now : Nat) :
    AgentState × CallResult :=
  let a := lookup st.facts question
  if truthy a then
    (st, CallResult.answered (a.getD ""))
  else
    ({ st with db := create_help_request st.db fresh_id question now },
      CallResult.escalated fresh_id question)

/-- Embeds `AIAgent.respond_to_user(req_id, answer)` (`app/ai_agent.py`): notify the
customer, teach the knowledge base, mark the request Resolved. -/
def respond_to_user (st : AgentState) (req_id ans : String) : AgentState :=
  { facts := learn st.db st.facts req_id ans,
    db := update_help_request_status st.db req_id "Resolved" }

/-- The `/respond` POST route (`app/supervisor_ui.py`): save the submitted
answer, then run `respond_to_user`.  No validation of the answer happens
server-side. -/
def respond (st : AgentState) (req_id ans : String) : AgentState :=
  respond_to_user { st with db := save_answer st.db req_id ans } req_id ans

/-- The ledger evolution performed by one `/respond` submission (the facts are
irrelevant to the db component). -/
def resolve_db (db : Ledger) (req_id ans : String) : Ledger :=
  update_help_request_status (save_answer db req_id ans) req_id "Resolved"

/-- Ledger states reachable by completed operations: creations (including the
one performed inside `handle_call`) and full resolutions through the
`/respond` route. -/
inductive ReachableLedger : Ledger → Prop
  | nil : ReachableLedger []
  | create (db : Ledger) (id q : String) (now : Nat) :
      ReachableLedger db → ReachableLedger (create_help_request db id q now)
  | resolve (db : Ledger) (id a : String) :
      ReachableLedger db → ReachableLedger (resolve_db db id a)

/-- The record invariant of the spec data model: the answer is non-null
exactly when the status is the string "Resolved". -/
def recordInv (r : Request) : Prop :=
  r.answer ≠ none ↔ r.status = "Resolved"

instance (r : Request) : Decidable (recordInv r) := by
  unfold recordInv; infer_instance

/-- Last Resolved record in ledger order whose lowercased question is `k`. -/
def lastResolved (db : Ledger) (k : String) : Option Request :=
  match db with
  | [] => none
  | (_, req) :: rest =>
      match lastResolved rest k with
      | some r => some r
      | none =>
          if req.status = "Resolved" ∧ pyLower req.question = k then some req
          else none

theorem respond_db (st : AgentState) (req_id ans : String) :
    (respond st req_id ans).db = resolve_db st.db req_id ans := rfl

theorem dictGet_dictSet_self {α : Type} (d : List (String × α)) (k : String)
    (v : α) : dictGet (dictSet d k v) k = some v := by
  induction d with
  | nil => simp [dictSet, dictGet]
  | cons hd tl ih =>
      obtain ⟨k₀, v₀⟩ := hd
      by_cases h : k₀ = k <;> simp [dictSet, dictGet, h, ih]

theorem dictGet_dictSet_ne {α : Type} (d : List (String × α)) {k j : String}
    (v : α) (h : j ≠ k) : dictGet (dictSet d k v) j = dictGet d j := by
  induction d with
  | nil => simp [dictSet, dictGet, Ne.symm h]
  | cons hd tl ih =>
      obtain ⟨k₀, v₀⟩ := hd
      by_cases h₀ : k₀ = k
      · subst h₀
        simp [dictSet, dictGet, Ne.symm h]
      · rw [dictSet]
        simp only [if_neg h₀]
        rw [dictGet, dictGet, ih]

theorem dictSet_dictSet_same {α : Type} (d : List (String × α)) (k : String)
    (v w : α) : dictSet (dictSet d k v) k w = dictSet d k w := by
  induction d with
  | nil => simp [dictSet]
  | cons hd tl ih =>
      obtain ⟨k₀, v₀⟩ := hd
      by_cases h : k₀ = k <;> simp [dictSet, h, ih]

theorem dictSet_absent {α : Type} {d : List (String × α)} {k : String}
    (v : α) (h : dictGet d k = none) : dictSet d k v = d ++ [(k, v)] := by
  induction d with
  | nil => simp [dictSet]
  | cons hd tl ih =>
      obtain ⟨k₀, v₀⟩ := hd
      by_cases h₀ : k₀ = k
      · simp [dictGet, h₀] at h
      · simp [dictGet, h₀] at h
        simp [dictSet, h₀, ih h]

theorem dictModify_cons {α : Type} (k₀ : String) (v₀ : α)
    (tl : List (String × α)) (k : String) (f : α → α) :
    dictModify ((k₀, v₀) :: tl) k f =
      (if k₀ = k then (k₀, f v₀) else (k₀, v₀)) :: dictModify tl k f := by
  by_cases h : k₀ = k <;> simp [dictModify, h]

theorem dictGet_dictModify_self {α : Type} (d : List (String × α))
    (k : String) (f : α → α) :
    dictGet (dictModify d k f) k = (dictGet d k).map f := by
  induction d with
  | nil => rfl
  | cons hd tl ih =>
      obtain ⟨k₀, v₀⟩ := hd
      rw [dictModify_cons]
      by_cases h : k₀ = k
      · rw [if_pos h]
        simp [dictGet, h]
      · rw [if_neg h]
        simp [dictGet, h, ih]

theorem dictGet_dictModify_ne {α : Type} (d : List (String × α))
    {k j : String} (f : α → α) (h : j ≠ k) :
    dictGet (dictModify d k f) j = dictGet d j := by
  induction d with
  | nil => rfl
  | cons hd tl ih =>
      obtain ⟨k₀, v₀⟩ := hd
      rw [dictModify_cons]
      by_cases h₀ : k₀ = k
      · rw [if_pos h₀]
        have hj : k₀ ≠ j := by rw [h₀]; exact Ne.symm h
        simp [dictGet, hj, ih]
      · rw [if_neg h₀]
        simp [dictGet, ih]

theorem dictModify_absent {α : Type} {d : List (String × α)} {k : String}
    (f : α → α) (h : dictGet d k = none) : dictModify d k f = d := by
  induction d with
  | nil => rfl
  | cons hd tl ih =>
      obtain ⟨k₀, v₀⟩ := hd
      rw [dictGet] at h
      by_cases h₀ : k₀ = k
      · rw [if_pos h₀] at h
        exact absurd h (by simp)
      · rw [if_neg h₀] at h
        rw [dictModify_cons, if_neg h₀, ih h]

theorem mem_dictSet {α : Type} {d : List (String × α)} {k : String} {v : α}
    {p : String × α} (h : p ∈ dictSet d k v) : p = (k, v) ∨ p ∈ d := by
  induction d with
  | nil => simpa [dictSet] using h
  | cons hd tl ih =>
      obtain ⟨k₀, v₀⟩ := hd
      by_cases h₀ : k₀ = k
      · subst h₀
        simp [dictSet] at h
        rcases h with h | h
        · exact Or.inl (by simp [h])
        · exact Or.inr (List.mem_cons_of_mem _ h)
      · simp [dictSet, h₀] at h
        rcases h with h | h
        · exact Or.inr (by simp [h])
        · rcases ih h with h₁ | h₁
          · exact Or.inl h₁
          · exact Or.inr (List.mem_cons_of_mem _ h₁)

theorem dictGet_load_facts (db : Ledger) (facts : Facts) (k : String) :
    dictGet (load_facts facts db) k =
      match lastResolved db k with
      | some r => some r.answer
      | none => dictGet facts k := by
  induction db generalizing facts with
  | nil => rfl
  | cons hd tl ih =>
      obtain ⟨id, req⟩ := hd
      rw [load_facts, lastResolved]
      by_cases hres : req.status = "Resolved"
      · rw [if_pos hres, ih]
        cases hlr : lastResolved tl k with
        | some r => rfl
        | none =>
            by_cases hk : pyLower req.question = k
            · rw [hk, dictGet_dictSet_self]
              simp [hres, hk]
            · rw [dictGet_dictSet_ne _ _ (fun hh => hk hh.symm)]
              simp [hres, hk]
      · rw [if_neg hres, ih]
        cases hlr : lastResolved tl k with
        | some r => rfl
        | none => simp [hres]

theorem recordInv_create (db : Ledger) (id q : String) (now : Nat)
    (h : ∀ p ∈ db, recordInv p.2) :
    ∀ p ∈ create_help_request db id q now, recordInv p.2 := by
  intro p hp
  rcases mem_dictSet hp with rfl | hp₁
  · simp [recordInv]
  · exact h p hp₁

theorem recordInv_resolve (db : Ledger) (id a : String)
    (h : ∀ p ∈ db, recordInv p.2) :
    ∀ p ∈ resolve_db db id a, recordInv p.2 := by
  intro p hp
  rw [resolve_db, update_help_request_status, dictModify] at hp
  rcases List.mem_map.1 hp with ⟨q, hq, rfl⟩
  rw [save_answer, dictModify] at hq
  rcases List.mem_map.1 hq with ⟨r, hr, rfl⟩
  by_cases hk : r.1 = id
  · simp [hk, recordInv]
  · simp only [hk, if_neg hk, if_false]
    exact h r hr

theorem learn_found (db : Ledger) (facts : Facts) (req_id ans : String)
    (r : Request) (h : dictGet db req_id = some r) :
    learn db facts req_id ans = dictSet facts (pyLower r.question) (some ans) := by
  unfold learn
  rw [h]

theorem learn_absent (db : Ledger) (facts : Facts) (req_id ans : String)
    (h : dictGet db req_id = none) : learn db facts req_id ans = facts := by
  unfold learn
  rw [h]

theorem lookup_of_dictGet (facts : Facts) (q : String) (v : Option String)
    (h : dictGet facts (pyLower q) = some v) : lookup facts q = v := by
  unfold lookup
  rw [h]

theorem dictGet_save_answer_self (db : Ledger) (req_id ans : String)
    (r : Request) (h : dictGet db req_id = some r) :
    dictGet (save_answer db req_id ans) req_id =
      some { r with answer := some ans } := by
  rw [save_answer, dictGet_dictModify_self, h]
  rfl

/-- Some concrete states used to evaluate the claims on explicit inputs. -/
def sampleRecord : Request :=
  { question := "q1", status := "Pending", timestamp := 0, answer := none }

def sampleDb : Ledger := [("r1", sampleRecord)]

def sampleState : AgentState := { facts := [], db := sampleDb }

/-- The run of Scenario 1 followed by a resolution with the empty answer:
ask the business-hours question (escalates as request r1), then submit the
empty string through the `/respond` route. -/
def businessQ : String := "What are your business hours?"

def exEscalated : AgentState :=
  (handle_call { facts := [], db := [] } businessQ "r1" 0).1

def exResolvedEmpty : AgentState := respond exEscalated "r1" ""

/-- C2: every ledger record in a state reachable by completed operations
(creations, including the one inside `handle_call`, and full resolutions
through the `/respond` route) has a non-null answer exactly when its status
is "Resolved"; in particular each successful resolution re-establishes the
invariant. -/
theorem C2_answer_iff_resolved (db : Ledger) (h : ReachableLedger db) :
    ∀ p ∈ db, recordInv p.2 := by
  induction h with
  | nil => intro p hp; cases hp
  | create db₀ id q now hdb ih => exact recordInv_create db₀ id q now ih
  | resolve db₀ id a hdb ih => exact recordInv_resolve db₀ id a ih

theorem C2_answer_iff_resolved_witness :
    ReachableLedger (resolve_db (create_help_request [] "r1" "q1" 0) "r1" "9am-5pm") ∧
    ∀ p ∈ resolve_db (create_help_request [] "r1" "q1" 0) "r1" "9am-5pm",
      recordInv p.2 :=
  ⟨ReachableLedger.resolve _ "r1" "9am-5pm"
      (ReachableLedger.create _ "r1" "q1" 0 ReachableLedger.nil),
    C2_answer_iff_resolved _
      (ReachableLedger.resolve _ "r1" "9am-5pm"
        (ReachableLedger.create _ "r1" "q1" 0 ReachableLedger.nil))⟩

/-- C3: for an identifier absent from the ledger, `update_help_request_status`,
`save_answer`, `learn` and the whole `/respond` resolution leave both the
ledger and the fact store unchanged; all these operations are total, so no
error is surfaced. -/
theorem C3_absent_id_silent_noop (st : AgentState) (req_id s a : String)
    (h : dictGet st.db req_id = none) :
    update_help_request_status st.db req_id s = st.db ∧
    save_answer st.db req_id a = st.db ∧
    learn st.db st.facts req_id a = st.facts ∧
    respond st req_id a = st := by
  have h₁ : update_help_request_status st.db req_id s = st.db :=
    dictModify_absent _ h
  have h₂ : save_answer st.db req_id a = st.db := dictModify_absent _ h
  have h₃ : learn st.db st.facts req_id a = st.facts := learn_absent _ _ _ _ h
  have h₄ : update_help_request_status st.db req_id "Resolved" = st.db :=
    dictModify_absent _ h
  refine ⟨h₁, h₂, h₃, ?_⟩
  show respond st req_id a = st
  rw [respond, respond_to_user]
  simp only [h₂, h₃, h₄]

theorem C3_absent_id_silent_noop_witness :
    dictGet sampleState.db "r2" = none ∧
    (update_help_request_status sampleState.db "r2" "Resolved" = sampleState.db ∧
      save_answer sampleState.db "r2" "x" = sampleState.db ∧
      learn sampleState.db sampleState.facts "r2" "x" = sampleState.facts ∧
      respond sampleState "r2" "x" = sampleState) :=
  ⟨by decide, C3_absent_id_silent_noop sampleState "r2" "Resolved" "x" (by decide)⟩

/-- C4 counterexample: creating twice under the same identifier raises no
error (the operation is total) and does not leave the existing record
unchanged — the second create silently replaces it. -/
theorem C4_counterexample :
    dictGet (create_help_request (create_help_request [] "id1" "q1" 0) "id1" "q2" 5)
        "id1" ≠
      dictGet (create_help_request [] "id1" "q1" 0) "id1" ∧
    dictGet (create_help_request (create_help_request [] "id1" "q1" 0) "id1" "q2" 5)
        "id1" =
      some { question := "q2", status := "Pending", timestamp := 5, answer := none } := by
  decide

/-- C4 amended: `create_help_request` never fails; it stores a Pending record
with the given question, the current timestamp and a null answer under the
identifier — silently overwriting any existing record there — and leaves
every other identifier untouched. -/
theorem C4_amended_create_overwrites (db : Ledger) (id q : String) (now : Nat) :
    dictGet (create_help_request db id q now) id =
      some { question := q, status := "Pending", timestamp := now, answer := none } ∧
    ∀ j, j ≠ id → dictGet (create_help_request db id q now) j = dictGet db j := by
  exact ⟨dictGet_dictSet_self db id _, fun j hj => dictGet_dictSet_ne db _ hj⟩

theorem C4_amended_create_overwrites_witness :
    dictGet (create_help_request sampleDb "r1" "q2" 5) "r1" =
      some { question := "q2", status := "Pending", timestamp := 5, answer := none } ∧
    dictGet (create_help_request sampleDb "r1" "q2" 5) "r9" = dictGet sampleDb "r9" :=
  ⟨(C4_amended_create_overwrites sampleDb "r1" "q2" 5).1,
    (C4_amended_create_overwrites sampleDb "r1" "q2" 5).2 "r9" (by decide)⟩

/-- C7: teaching the fact store the same pair twice leaves it in exactly the
state of teaching it once, and teaching a different answer for the same
request silently overwrites (last writer wins). -/
theorem C7_learn_idempotent_last_wins (db : Ledger) (facts : Facts)
    (req_id a b : String) :
    learn db (learn db facts req_id a) req_id a = learn db facts req_id a ∧
    learn db (learn db facts req_id a) req_id b = learn db facts req_id b := by
  cases h : dictGet db req_id with
  | none => rw [learn_absent _ _ _ _ h, learn_absent _ _ _ _ h]
            exact ⟨rfl, rfl⟩
  | some r =>
      have hl : ∀ fs ans, learn db fs req_id ans =
          dictSet fs (pyLower r.question) (some ans) :=
        fun fs ans => learn_found db fs req_id ans r h
      simp only [hl, dictSet_dictSet_same]
      exact ⟨trivial, trivial⟩

/-- C1 counterexample: the business-hours question is resolved with the empty
answer, the fact store has learned it, yet the re-ask in different casing does
not return the learned answer — it escalates again and creates a second
ledger entry, because the hit test is on truthiness. -/
theorem C1_counterexample :
    dictGet exResolvedEmpty.facts (pyLower businessQ) = some (some "") ∧
    (handle_call exResolvedEmpty "WHAT ARE YOUR BUSINESS HOURS?" "r2" 1).2 =
      CallResult.escalated "r2" "WHAT ARE YOUR BUSINESS HOURS?" ∧
    dictGet (handle_call exResolvedEmpty "WHAT ARE YOUR BUSINESS HOURS?" "r2" 1).1.db
        "r2" =
      some { question := "WHAT ARE YOUR BUSINESS HOURS?", status := "Pending",
             timestamp := 1, answer := none } := by
  decide

/-- C1 amended: once a question present in the ledger is resolved with a
NON-EMPTY answer, a subsequent `handle_call` of it in any casing returns that
answer immediately, leaves the state unchanged, and neither escalates nor
creates a ledger entry.  (With the empty answer the fact store still learns
the pair, but the truthiness hit test makes the re-ask escalate.) -/
theorem C1_amended_nonempty_answer (st : AgentState) (req_id Q Qr A fid : String)
    (now : Nat) (hA : A ≠ "")
    (hq : (dictGet st.db req_id).map Request.question = some Q)
    (hcase : pyLower Qr = pyLower Q) :
    handle_call (respond st req_id A) Qr fid now =
      (respond st req_id A, CallResult.answered A) := by
  obtain ⟨r, hr, hrq⟩ : ∃ r, dictGet st.db req_id = some r ∧ r.question = Q := by
    cases h : dictGet st.db req_id with
    | none => rw [h] at hq; cases hq
    | some r₀ =>
        rw [h] at hq
        exact ⟨r₀, rfl, by simpa using hq⟩
  have hfacts : (respond st req_id A).facts =
      dictSet st.facts (pyLower Q) (some A) := by
    show learn (save_answer st.db req_id A) st.facts req_id A = _
    rw [learn_found _ _ _ _ { r with answer := some A }
        (dictGet_save_answer_self st.db req_id A r hr)]
    simp [hrq]
  have hlook : lookup (respond st req_id A).facts Qr = some A := by
    apply lookup_of_dictGet
    rw [hfacts, hcase, dictGet_dictSet_self]
  have htr : truthy (lookup (respond st req_id A).facts Qr) = true := by
    rw [hlook]
    simp [truthy, hA]
  simp only [handle_call, hlook, htr, if_true, Option.getD_some]
  simp [truthy, hA]

theorem C1_amended_nonempty_answer_witness :
    ("9am-5pm" : String) ≠ "" ∧
    (dictGet sampleState.db "r1").map Request.question = some "q1" ∧
    pyLower "Q1" = pyLower "q1" ∧
    handle_call (respond sampleState "r1" "9am-5pm") "Q1" "r2" 1 =
      (respond sampleState "r1" "9am-5pm", CallResult.answered "9am-5pm") :=
  ⟨by decide, by decide, by decide,
    C1_amended_nonempty_answer sampleState "r1" "q1" "Q1" "9am-5pm" "r2" 1
      (by decide) (by decide) (by decide)⟩

/-- C5: on a fresh identifier, `handle_call` either finds a truthy fact-store
hit, leaves the whole state unchanged and emits the stored answer, or on a
miss appends exactly one new ledger record carrying the verbatim question,
status Pending and a null answer, and emits the escalation notice with the
fresh identifier and the verbatim question. -/
theorem C5_hit_or_escalate (st : AgentState) (q fid : String) (now : Nat)
    (hfresh : dictGet st.db fid = none) :
    (∃ a, lookup st.facts q = some a ∧ a ≠ "" ∧
        handle_call st q fid now = (st, CallResult.answered a)) ∨
    (truthy (lookup st.facts q) = false ∧
      handle_call st q fid now =
        ({ st with db := st.db ++
            [(fid, { question := q, status := "Pending", timestamp := now,
                     answer := none })] },
          CallResult.escalated fid q)) := by
  cases htr : truthy (lookup st.facts q) with
  | true =>
      left
      cases hl : lookup st.facts q with
      | none => rw [hl] at htr; cases htr
      | some s =>
          rw [hl] at htr
          have hs : s ≠ "" := by simpa [truthy] using htr
          refine ⟨s, rfl, hs, ?_⟩
          simp only [handle_call, hl, truthy, hs, if_true, Option.getD_some]
          simp [hs]
  | false =>
      right
      refine ⟨rfl, ?_⟩
      simp only [handle_call, htr, if_false, Bool.false_eq_true]
      rw [create_help_request, dictSet_absent _ hfresh]

theorem C5_hit_or_escalate_witness :
    dictGet sampleState.db "r9" = none ∧
    ((∃ a, lookup sampleState.facts "hello" = some a ∧ a ≠ "" ∧
        handle_call sampleState "hello" "r9" 7 =
          (sampleState, CallResult.answered a)) ∨
      (truthy (lookup sampleState.facts "hello") = false ∧
        handle_call sampleState "hello" "r9" 7 =
          ({ sampleState with db := sampleState.db ++
              [("r9", { question := "hello", status := "Pending", timestamp := 7,
                        answer := none })] },
            CallResult.escalated "r9" "hello"))) :=
  ⟨by decide, C5_hit_or_escalate sampleState "hello" "r9" 7 (by decide)⟩

/-- C6 counterexample: submitting the EMPTY answer through the `/respond`
route is not rejected; it mutates the ledger (the pending record becomes
Resolved with the empty string stored as its answer) and the fact store
learns the empty answer. -/
theorem C6_counterexample :
    exResolvedEmpty.db ≠ exEscalated.db ∧
    dictGet exResolvedEmpty.db "r1" =
      some { question := businessQ, status := "Resolved", timestamp := 0,
             answer := some "" } ∧
    dictGet exResolvedEmpty.facts (pyLower businessQ) = some (some "") := by
  decide

/-- C6 amended: the `/respond` route performs no server-side validation of
the submitted answer (the only guard is a client-side HTML `required`
attribute): an empty-answer submission for an existing request proceeds like
any other, setting the record's answer to the empty string, marking it
Resolved, and teaching the fact store the empty answer. -/
theorem C6_amended_empty_answer_mutates (st : AgentState) (req_id : String)
    (r : Request) (h : dictGet st.db req_id = some r) :
    dictGet (respond st req_id "").db req_id =
      some { r with answer := some "", status := "Resolved" } ∧
    dictGet (respond st req_id "").facts (pyLower r.question) =
      some (some "") := by
  constructor
  · show dictGet (resolve_db st.db req_id "") req_id = _
    rw [resolve_db, update_help_request_status, dictGet_dictModify_self,
      dictGet_save_answer_self st.db req_id "" r h]
    rfl
  · show dictGet (learn (save_answer st.db req_id "") st.facts req_id "")
        (pyLower r.question) = _
    rw [learn_found _ _ _ _ { r with answer := some "" }
        (dictGet_save_answer_self st.db req_id "" r h)]
    exact dictGet_dictSet_self _ _ _

theorem C6_amended_empty_answer_mutates_witness :
    dictGet sampleState.db "r1" = some sampleRecord ∧
    (dictGet (respond sampleState "r1" "").db "r1" =
        some { sampleRecord with answer := some "", status := "Resolved" } ∧
      dictGet (respond sampleState "r1" "").facts (pyLower sampleRecord.question) =
        some (some "")) :=
  ⟨by decide,
    C6_amended_empty_answer_mutates sampleState "r1" sampleRecord (by decide)⟩

/-- C8: `update_help_request_status` changes at most the status field and
`save_answer` at most the answer field of the addressed record — question and
timestamp are immutable under both — and every record under a different
identifier is completely unchanged. -/
theorem C8_mutators_frame (db : Ledger) (req_id s a k : String) :
    ((dictGet (update_help_request_status db req_id s) k).map
        (fun r => (r.question, r.timestamp, r.answer)) =
      (dictGet db k).map (fun r => (r.question, r.timestamp, r.answer))) ∧
    ((dictGet (save_answer db req_id a) k).map
        (fun r => (r.question, r.timestamp, r.status)) =
      (dictGet db k).map (fun r => (r.question, r.timestamp, r.status))) ∧
    (k ≠ req_id →
      dictGet (update_help_request_status db req_id s) k = dictGet db k ∧
      dictGet (save_answer db req_id a) k = dictGet db k) := by
  refine ⟨?_, ?_, fun hk =>
    ⟨dictGet_dictModify_ne db _ hk, dictGet_dictModify_ne db _ hk⟩⟩
  · by_cases hk : k = req_id
    · subst hk
      rw [update_help_request_status, dictGet_dictModify_self]
      cases dictGet db k <;> rfl
    · rw [update_help_request_status, dictGet_dictModify_ne db _ hk]
  · by_cases hk : k = req_id
    · subst hk
      rw [save_answer, dictGet_dictModify_self]
      cases dictGet db k <;> rfl
    · rw [save_answer, dictGet_dictModify_ne db _ hk]

theorem C8_mutators_frame_witness :
    ((dictGet (update_help_request_status sampleDb "r1" "Resolved") "r1").map
        (fun r => (r.question, r.timestamp, r.answer)) =
      (dictGet sampleDb "r1").map (fun r => (r.question, r.timestamp, r.answer))) ∧
    ((dictGet (save_answer sampleDb "r1" "x") "r1").map
        (fun r => (r.question, r.timestamp, r.status)) =
      (dictGet sampleDb "r1").map (fun r => (r.question, r.timestamp, r.status))) ∧
    (dictGet (update_help_request_status sampleDb "r1" "Resolved") "r2" =
        dictGet sampleDb "r2" ∧
      dictGet (save_answer sampleDb "r1" "x") "r2" = dictGet sampleDb "r2") :=
  ⟨(C8_mutators_frame sampleDb "r1" "Resolved" "x" "r1").1,
    (C8_mutators_frame sampleDb "r1" "Resolved" "x" "r1").2.1,
    (C8_mutators_frame sampleDb "r1" "Resolved" "x" "r2").2.2 (by decide)⟩

/-- C9: when the fact store maps the lowercased question to the EMPTY string,
`handle_call` treats it as a miss — the truthiness hit test fails — so it
escalates and appends a fresh Pending record instead of returning the stored
empty answer. -/
theorem C9_empty_fact_escalates (st : AgentState) (q fid : String) (now : Nat)
    (hfact : dictGet st.facts (pyLower q) = some (some ""))
    (hfresh : dictGet st.db fid = none) :
    handle_call st q fid now =
      ({ st with db := st.db ++
          [(fid, { question := q, status := "Pending", timestamp := now,
                   answer := none })] },
        CallResult.escalated fid q) := by
  have hl : lookup st.facts q = some "" := lookup_of_dictGet _ _ _ hfact
  have htr : truthy (lookup st.facts q) = false := by rw [hl]; rfl
  simp only [handle_call, htr, if_false, Bool.false_eq_true]
  rw [create_help_request, dictSet_absent _ hfresh]

theorem C9_empty_fact_escalates_witness :
    dictGet ([("what time?", some "")] : Facts) (pyLower "WHAT TIME?") =
      some (some "") ∧
    dictGet ([] : Ledger) "r1" = none ∧
    handle_call { facts := [("what time?", some "")], db := [] } "WHAT TIME?"
        "r1" 3 =
      ({ facts := [("what time?", some "")],
         db := [("r1", { question := "WHAT TIME?", status := "Pending",
                         timestamp := 3, answer := none })] },
        CallResult.escalated "r1" "WHAT TIME?") :=
  ⟨by decide, by decide,
    C9_empty_fact_escalates { facts := [("what time?", some "")], db := [] }
      "WHAT TIME?" "r1" 3 (by decide) (by decide)⟩

/-- C10 counterexample: with two Resolved records whose questions agree up to
casing but whose answers differ, a fresh knowledge base does NOT return the
first record's stored answer for its own question — the later record wins. -/
theorem C10_counterexample :
    dictGet
        ([("i1", { question := "A", status := "Resolved", timestamp := 0,
                   answer := some "x" }),
          ("i2", { question := "a", status := "Resolved", timestamp := 1,
                   answer := some "y" })] : Ledger) "i1" =
      some { question := "A", status := "Resolved", timestamp := 0,
             answer := some "x" } ∧
    lookup (knowledgeBaseInit
        [("i1", { question := "A", status := "Resolved", timestamp := 0,
                  answer := some "x" }),
         ("i2", { question := "a", status := "Resolved", timestamp := 1,
                  answer := some "y" })]) "A" ≠ some "x" ∧
    lookup (knowledgeBaseInit
        [("i1", { question := "A", status := "Resolved", timestamp := 0,
                  answer := some "x" }),
         ("i2", { question := "a", status := "Resolved", timestamp := 1,
                  answer := some "y" })]) "A" = some "y" := by
  decide

/-- C10 amended: a fresh knowledge base is seeded from exactly the Resolved
records: a lowercased question is present iff some Resolved record has it,
its stored value is the answer of the LAST such record in ledger order (so
with duplicated normalized questions a record's own answer can be shadowed),
and a lookup in any casing returns that last answer; Pending records
contribute nothing. -/
theorem C10_amended_last_resolved_wins (db : Ledger) (k q : String) :
    dictGet (knowledgeBaseInit db) k = (lastResolved db k).map Request.answer ∧
    lookup (knowledgeBaseInit db) q =
      (lastResolved db (pyLower q)).bind Request.answer := by
  have h₁ : ∀ j, dictGet (knowledgeBaseInit db) j =
      (lastResolved db j).map Request.answer := by
    intro j
    rw [knowledgeBaseInit, dictGet_load_facts]
    cases lastResolved db j <;> rfl
  refine ⟨h₁ k, ?_⟩
  unfold lookup
  rw [h₁ (pyLower q)]
  cases lastResolved db (pyLower q) with
  | none => rfl
  | some r => rfl

end FrontDesk
